import Mathlib

/-!
Verification of the OTP issuance/verification engine (`server.js`) of the
Otp-System repository, over a shallow embedding of its two endpoints and
their MySQL tables.

Modelling conventions:
* Timestamps are `Int` milliseconds (JS `Date` arithmetic is millisecond
  based: `15 * 60 * 1000`, `5 * 60 * 1000`, ...). Each operation receives a
  single `now`, matching the code's single-transaction use of `NOW()` /
  `Date.now()`.
* The four tables (`otps`, `user_rate_limits`, `ip_rate_limits`,
  `idempotency_keys`) are lists of rows. `INSERT` appends, `UPDATE ... WHERE
  id = ?` maps over the list. Both unique constraints of `schema.sql` are
  modelled: the `idempotency_keys` PRIMARY KEY, and the `otps` table's
  `UNIQUE KEY uk_user_purpose_active (user_id, purpose, is_used,
  is_locked)` — an INSERT whose key tuple equals an existing row's, or an
  UPDATE that changes a row's key tuple onto another row's, raises
  ER_DUP_ENTRY; either duplicate-key error carries no `.status` field, so
  the route's catch-all rolls the whole transaction back and answers 500.
* `JSON.stringify`/`JSON.parse` of the stored response round-trips, so the
  stored payload is kept structured.
* The `crypto.randomBytes(4).readUInt32BE(0)` draw is an explicit `draw`
  parameter (a 32-bit value chosen by the environment).
-/

/-- JS `Math.ceil(x / 1000)` on integer millisecond quantities:
ceiling division by 1000, exact for negative inputs as well
(`⌈a/b⌉ = -⌊-a/b⌋`). -/
def ceilDiv1000 (a : Int) : Int := -((-a).fdiv 1000)

/-- The character for a decimal digit (JS number-to-string uses ASCII
digits). -/
def digitChar (d : Nat) : Char := Char.ofNat (48 + d)

/-- Fueled decimal digit expansion; with fuel greater than `n` this is the
usual most-significant-first decimal representation, as produced by JS
`String(n)` for a nonnegative integer. -/
def natDigitsAux : Nat → Nat → List Char
  | 0, _ => []
  | fuel + 1, n =>
    if n < 10 then [digitChar n]
    else natDigitsAux fuel (n / 10) ++ [digitChar (n % 10)]

/-- Decimal representation of a natural number, as JS `String(n)`. -/
def natDigits (n : Nat) : List Char := natDigitsAux (n + 1) n

/-- JS `s.padStart(6, '0')`: left-pad with `'0'` up to length 6 (a longer
string is returned unchanged, since `6 - length = 0`). -/
def padStart6 (l : List Char) : List Char :=
  List.replicate (6 - l.length) '0' ++ l

/-- `generateOTP` from `server.js` lines 20-24, as a function of the
underlying uniformly random 32-bit draw:
`String(randomNumber % 1000000).padStart(6, '0')`. -/
def generateOTP (draw : Nat) : String :=
  String.mk (padStart6 (natDigits (draw % 1000000)))

/-- A row of the `otps` table (`schema.sql`). `locked_until` is nullable. -/
structure OtpRecord where
  id : Nat
  user_id : String
  purpose : String
  code : String
  created_at : Int
  expires_at : Int
  is_used : Bool
  is_locked : Bool
  locked_until : Option Int
  attempt_count : Nat
deriving DecidableEq

/-- A row of the `idempotency_keys` table; `response` is the stored
`response_data` JSON payload. -/
structure IssueResponse where
  otp_id : Nat
  ttl : Nat
  remaining_requests : Nat
deriving DecidableEq

structure IdemRecord where
  key : String
  user_id : String
  purpose : String
  response : IssueResponse
  expires_at : Int
deriving DecidableEq

/-- The persistent store: the four tables plus the `otps` AUTO_INCREMENT
counter. Rate-limit rows are (key, request_timestamp) pairs. -/
structure SysState where
  otps : List OtpRecord
  userRateLimits : List (String × Int)
  ipRateLimits : List (String × Int)
  idempotencyKeys : List IdemRecord
  nextOtpId : Nat
deriving DecidableEq

/-- Fresh database: empty tables, AUTO_INCREMENT starting at 1. -/
def initState : SysState :=
  { otps := [], userRateLimits := [], ipRateLimits := [],
    idempotencyKeys := [], nextOtpId := 1 }

/-- Result of `POST /otp/request`. -/
inductive ReqResult where
  | ok (resp : IssueResponse)
  | replay (resp : IssueResponse)
  | rateLimited (remainingCooldownSeconds : Int)
  | internalError
deriving DecidableEq

/-- Result of `POST /otp/verify`. -/
inductive VerifyResult where
  | success
  | notFound
  | expired
  | codeUsed
  | tooManyAttempts (retryAfterSeconds : Int)
  | invalidCode (attemptsRemaining : Nat)
  | internalError
deriving DecidableEq

/-- `UPDATE otps SET ... WHERE id = ?`: apply `f` to every row with the
given id. -/
def updateOtp (l : List OtpRecord) (i : Nat) (f : OtpRecord → OtpRecord) :
    List OtpRecord :=
  l.map (fun r => if r.id = i then f r else r)

/-- `SET is_used = TRUE`. -/
def markUsedRow (r : OtpRecord) : OtpRecord := { r with is_used := true }

/-- The conditional mark-used of the success path: `SET is_used = TRUE ...
AND is_used = FALSE` touches only rows still unused. -/
def markUsedIfUnusedRow (r : OtpRecord) : OtpRecord :=
  if r.is_used then r else { r with is_used := true }

/-- `SET attempt_count = ?, is_locked = TRUE, locked_until = ?`. -/
def lockRow (newCount : Nat) (lu : Int) (r : OtpRecord) : OtpRecord :=
  { r with attempt_count := newCount, is_locked := true,
           locked_until := some lu }

/-- `SET attempt_count = ?`. -/
def bumpRow (newCount : Nat) (r : OtpRecord) : OtpRecord :=
  { r with attempt_count := newCount }

/-- `SET is_locked = FALSE, locked_until = NULL, attempt_count = 0`. -/
def unlockRow (r : OtpRecord) : OtpRecord :=
  { r with is_locked := false, locked_until := none, attempt_count := 0 }

/-- The column tuple of the `otps` unique key `uk_user_purpose_active
(user_id, purpose, is_used, is_locked)` (schema.sql). -/
def keyTuple (r : OtpRecord) : String × String × Bool × Bool :=
  (r.user_id, r.purpose, r.is_used, r.is_locked)

/-- Whether `UPDATE otps SET ... WHERE id = ?` (applying `f`) raises
ER_DUP_ENTRY under `uk_user_purpose_active`: the targeted row's key tuple
changes and collides with another row's. -/
def updateViolatesKey (l : List OtpRecord) (i : Nat)
    (f : OtpRecord → OtpRecord) : Bool :=
  l.any (fun r => r.id == i && !(keyTuple (f r) == keyTuple r) &&
    l.any (fun r2 => !(r2.id == i) && keyTuple r2 == keyTuple (f r)))

/-- Whether inserting a new row raises ER_DUP_ENTRY under
`uk_user_purpose_active`: some existing row has the same key tuple. -/
def insertViolatesKey (l : List OtpRecord) (nr : OtpRecord) : Bool :=
  l.any (fun r2 => keyTuple r2 == keyTuple nr)

/-- `ORDER BY created_at DESC LIMIT 1` over a list of rows: the first row
carrying the maximal `created_at`. -/
def pickLatest : List OtpRecord → Option OtpRecord
  | [] => none
  | r :: rest =>
    match pickLatest rest with
    | none => some r
    | some b => if b.created_at > r.created_at then some b else some r

/-- Row predicate of the verify lookup (`server.js` line 189):
`user_id = ? AND purpose = ? AND is_used = FALSE`. -/
def unusedFor (u p : String) (r : OtpRecord) : Bool :=
  r.user_id == u && r.purpose == p && !r.is_used

/-- The verify lookup: most recent non-used row for the pair. -/
def latestUnused (otps : List OtpRecord) (u p : String) : Option OtpRecord :=
  pickLatest (otps.filter (unusedFor u p))

/-- Row predicate of the issuance invalidation lookup (`server.js` line
117): `is_used = FALSE AND is_locked = FALSE AND expires_at > NOW()`. -/
def activeFor (u p : String) (now : Int) (r : OtpRecord) : Bool :=
  r.user_id == u && r.purpose == p && !r.is_used && !r.is_locked &&
    decide (now < r.expires_at)

/-- A rate-limit row qualifying for the 15-minute rolling window:
`request_timestamp >= now - 15 * 60 * 1000`. -/
def qualifies (k : String) (cutoff : Int) (e : String × Int) : Bool :=
  e.1 == k && decide (cutoff ≤ e.2)

/-- `SELECT request_timestamp ... ORDER BY request_timestamp ASC LIMIT 1`:
the minimum timestamp of the list (0 as a dummy on the empty list; every
call site has at least `limit ≥ 3` qualifying rows). -/
def minTs (l : List (String × Int)) : Int :=
  match l.map (fun e => e.2) with
  | [] => 0
  | t :: ts => ts.foldl min t

/-- `checkRateLimits` (`server.js` lines 32-83): count qualifying rows for
the user (limit 3, checked first) then the IP (limit 8); on breach throw
429 with the ceiled cooldown computed from the oldest qualifying row; on
admission insert one row per scope and return the remaining quotas. -/
def checkRateLimits (s : SysState) (userId ipAddress : String) (now : Int) :
    Except Int (SysState × Nat × Nat) :=
  let cutoff := now - 15 * 60 * 1000
  let userQual := s.userRateLimits.filter (qualifies userId cutoff)
  if userQual.length ≥ 3 then
    .error (ceilDiv1000 (minTs userQual + 15 * 60 * 1000 - now))
  else
    let ipQual := s.ipRateLimits.filter (qualifies ipAddress cutoff)
    if ipQual.length ≥ 8 then
      .error (ceilDiv1000 (minTs ipQual + 15 * 60 * 1000 - now))
    else
      .ok ({ s with
              userRateLimits := s.userRateLimits ++ [(userId, now)],
              ipRateLimits := s.ipRateLimits ++ [(ipAddress, now)] },
           3 - userQual.length - 1, 8 - ipQual.length - 1)

/-- The row inserted by `INSERT INTO otps (user_id, purpose, code,
expires_at) VALUES (?, ?, ?, ?)` with the schema defaults
(`is_used FALSE`, `is_locked FALSE`, `locked_until NULL`,
`attempt_count 0`, `created_at CURRENT_TIMESTAMP`) and the 5-minute TTL
computed at line 131. -/
def newOtpRecord (s : SysState) (u p : String) (draw : Nat) (now : Int) :
    OtpRecord :=
  { id := s.nextOtpId, user_id := u, purpose := p, code := generateOTP draw,
    created_at := now, expires_at := now + 5 * 60 * 1000,
    is_used := false, is_locked := false, locked_until := none,
    attempt_count := 0 }

/-- Tail of the request handler after invalidation (`server.js` lines
129-157): insert the new OTP row (which can hit `uk_user_purpose_active`),
then record the idempotency key (which can hit the table's PRIMARY KEY);
either duplicate-key error rolls the whole transaction back to `s0`. -/
def otpRequestInsert (s0 s2 : SysState) (u p key : String) (draw : Nat)
    (userRemaining : Nat) (now : Int) : ReqResult × SysState :=
  if insertViolatesKey s2.otps (newOtpRecord s2 u p draw now) then
    (.internalError, s0)
  else if s2.idempotencyKeys.any (fun r => r.key == key) then
    (.internalError, s0)
  else
    (.ok { otp_id := s2.nextOtpId, ttl := 300,
           remaining_requests := userRemaining },
     { s2 with
        otps := s2.otps ++ [newOtpRecord s2 u p draw now],
        nextOtpId := s2.nextOtpId + 1,
        idempotencyKeys := s2.idempotencyKeys ++
          [{ key := key, user_id := u, purpose := p,
             response := { otp_id := s2.nextOtpId, ttl := 300,
                           remaining_requests := userRemaining },
             expires_at := now + 10 * 60 * 1000 }] })

/-- `POST /otp/request` (`server.js` lines 86-171), one transaction:
idempotency lookup (unexpired key replays the stored payload), rate-limit
admission, invalidation of the first existing active row, insertion of the
new OTP, and recording of the idempotency key. Any duplicate-key error —
the invalidation UPDATE or the new-row INSERT violating
`uk_user_purpose_active`, or the idempotency INSERT violating its PRIMARY
KEY — carries no `.status`, so the route rolls back and answers 500. -/
def otpRequest (s : SysState) (u p key ip : String) (draw : Nat)
    (now : Int) : ReqResult × SysState :=
  match s.idempotencyKeys.find?
      (fun r => r.key == key && decide (now < r.expires_at)) with
  | some rec => (.replay rec.response, s)
  | none =>
    match checkRateLimits s u ip now with
    | .error cd => (.rateLimited cd, s)
    | .ok (s1, userRemaining, _ipRemaining) =>
      match s1.otps.find? (activeFor u p now) with
      | some existing =>
        if updateViolatesKey s1.otps existing.id markUsedRow then
          (.internalError, s)
        else
          otpRequestInsert s
            { s1 with otps := updateOtp s1.otps existing.id markUsedRow }
            u p key draw userRemaining now
      | none => otpRequestInsert s s1 u p key draw userRemaining now

/-- The tail of the verify handler after the expiry and lock checks
(`server.js` lines 223-270): dead re-check of `is_used`, then the code
comparison with its conditional mark-used update (`WHERE id = ? AND
is_used = FALSE`, failing with `code_used` when it affects zero rows), or
the attempt-count increment with the 3-strike 10-minute lockout. A
mark-used or lockout UPDATE that collides under `uk_user_purpose_active`
raises ER_DUP_ENTRY, rolling the whole transaction back to `s0` (the
store as it was before the handler ran, which differs from `s` only when
the unlock write of lines 213-221 preceded this point). -/
def finishVerify (s0 s : SysState) (otp : OtpRecord) (code : String)
    (now : Int) : VerifyResult × SysState :=
  if otp.is_used then (.codeUsed, s)
  else if otp.code == code then
    if s.otps.any (fun r => r.id == otp.id && !r.is_used) then
      if updateViolatesKey s.otps otp.id markUsedIfUnusedRow then
        (.internalError, s0)
      else
        (.success,
         { s with otps := updateOtp s.otps otp.id markUsedIfUnusedRow })
    else (.codeUsed, s)
  else if otp.attempt_count + 1 ≥ 3 then
    if updateViolatesKey s.otps otp.id
        (lockRow (otp.attempt_count + 1) (now + 10 * 60 * 1000)) then
      (.internalError, s0)
    else
      (.tooManyAttempts 600,
       { s with otps := (updateOtp s.otps otp.id
          (lockRow (otp.attempt_count + 1) (now + 10 * 60 * 1000))) })
  else if updateViolatesKey s.otps otp.id
      (bumpRow (otp.attempt_count + 1)) then
    (.internalError, s0)
  else
    (.invalidCode (3 - (otp.attempt_count + 1)),
     { s with otps := (updateOtp s.otps otp.id
        (bumpRow (otp.attempt_count + 1))) })

/-- `POST /otp/verify` (`server.js` lines 174-279), one transaction: select
the most recent non-used row for the pair, retire it if expired, reject or
clear an elapsed lock (JS truthiness: a NULL `locked_until` skips both
lock branches), then `finishVerify`. -/
def otpVerify (s : SysState) (u p code : String) (now : Int) :
    VerifyResult × SysState :=
  match latestUnused s.otps u p with
  | none => (.notFound, s)
  | some otp =>
    if otp.expires_at < now then
      if updateViolatesKey s.otps otp.id markUsedRow then
        (.internalError, s)
      else
        (.expired,
         { s with otps := updateOtp s.otps otp.id markUsedRow })
    else
      match otp.locked_until with
      | some l =>
        if otp.is_locked && decide (now < l) then
          (.tooManyAttempts (ceilDiv1000 (l - now)), s)
        else if otp.is_locked && decide (l ≤ now) then
          if updateViolatesKey s.otps otp.id unlockRow then
            (.internalError, s)
          else
            finishVerify s
              { s with otps := updateOtp s.otps otp.id unlockRow }
              (unlockRow otp) code now
        else finishVerify s s otp code now
      | none => finishVerify s s otp code now

/-- An external operation: one HTTP request with its server-side time. -/
inductive Op where
  | request (u p key ip : String) (draw : Nat) (t : Int)
  | verify (u p code : String) (t : Int)
deriving DecidableEq

def opTime : Op → Int
  | .request _ _ _ _ _ t => t
  | .verify _ _ _ t => t

/-- Execute one operation, keeping only the resulting store. -/
def step (s : SysState) : Op → SysState
  | .request u p key ip draw t => (otpRequest s u p key ip draw t).2
  | .verify u p code t => (otpVerify s u p code t).2

def runFrom (s : SysState) (ops : List Op) : SysState :=
  ops.foldl step s

/-- The operation times are nondecreasing and bounded below by `t` (the
server clock is monotone). -/
def chronoFrom (t : Int) : List Op → Bool
  | [] => true
  | op :: rest => decide (t ≤ opTime op) && chronoFrom (opTime op) rest

/-- The time of the last operation (`t` when there is none). -/
def endTime (t : Int) : List Op → Int
  | [] => t
  | op :: rest => endTime (opTime op) rest

/-! ### Decimal-string facts about `generateOTP` -/

/-- Numeric value of an ASCII digit character. -/
def digitVal (c : Char) : Nat := c.toNat - 48

/-- Value of a most-significant-first digit string. -/
def listVal (l : List Char) : Nat :=
  l.foldl (fun a c => 10 * a + digitVal c) 0

theorem digitVal_digitChar (d : Nat) (h : d < 10) :
    digitVal (digitChar d) = d := by
  interval_cases d <;> decide

theorem digitChar_isDigit (d : Nat) (h : d < 10) :
    (digitChar d).isDigit = true := by
  interval_cases d <;> decide

theorem listVal_append_digit (l : List Char) (c : Char) :
    listVal (l ++ [c]) = 10 * listVal l + digitVal c := by
  simp [listVal, List.foldl_append]

theorem listVal_natDigitsAux (fuel n : Nat) (h : n < fuel) :
    listVal (natDigitsAux fuel n) = n := by
  induction fuel generalizing n with
  | zero => omega
  | succ f ih =>
    rw [natDigitsAux]
    by_cases h10 : n < 10
    · simp only [if_pos h10]
      simp [listVal, digitVal_digitChar n h10]
    · simp only [if_neg h10]
      rw [listVal_append_digit, ih (n / 10) (by omega),
        digitVal_digitChar (n % 10) (Nat.mod_lt n (by omega))]
      omega

theorem listVal_natDigits (n : Nat) : listVal (natDigits n) = n :=
  listVal_natDigitsAux (n + 1) n (Nat.lt_succ_self n)

theorem foldl_replicate_zero (k : Nat) :
    List.foldl (fun a c => 10 * a + digitVal c) 0 (List.replicate k '0') = 0 := by
  induction k with
  | zero => rfl
  | succ m ih => simpa [List.replicate_succ] using ih

theorem listVal_padStart6 (l : List Char) :
    listVal (padStart6 l) = listVal l := by
  simp [padStart6, listVal, List.foldl_append, foldl_replicate_zero]

theorem generateOTP_eq_iff (a b : Nat) :
    generateOTP a = generateOTP b ↔ a % 1000000 = b % 1000000 := by
  constructor
  · intro h
    have hdata : padStart6 (natDigits (a % 1000000)) =
        padStart6 (natDigits (b % 1000000)) := congrArg String.data h
    have := congrArg listVal hdata
    rwa [listVal_padStart6, listVal_padStart6, listVal_natDigits,
      listVal_natDigits] at this
  · intro h
    simp [generateOTP, h]

theorem length_natDigitsAux_le (fuel n e : Nat) (hf : n < fuel)
    (he : 0 < e) (hn : n < 10 ^ e) :
    (natDigitsAux fuel n).length ≤ e := by
  induction fuel generalizing n e with
  | zero => omega
  | succ f ih =>
    rw [natDigitsAux]
    by_cases h10 : n < 10
    · simp only [if_pos h10]
      simpa using he
    · simp only [if_neg h10]
      have he1 : 1 ≤ e := he
      have he2 : 2 ≤ e := by
        by_contra hlt
        interval_cases e
        · simp [pow_one] at hn; omega
      have hdiv : n / 10 < 10 ^ (e - 1) := by
        have : 10 ^ e = 10 ^ (e - 1) * 10 := by
          calc 10 ^ e = 10 ^ (e - 1 + 1) := by congr 1; omega
          _ = 10 ^ (e - 1) * 10 := pow_succ 10 (e - 1)
        rw [Nat.div_lt_iff_lt_mul (by omega)]
        omega
      have := ih (n / 10) (e - 1) (by omega) (by omega) hdiv
      simp only [List.length_append, List.length_cons, List.length_nil]
      omega

theorem length_natDigits_le_six (n : Nat) (h : n < 1000000) :
    (natDigits n).length ≤ 6 :=
  length_natDigitsAux_le (n + 1) n 6 (Nat.lt_succ_self n) (by omega)
    (by norm_num; omega)

theorem natDigitsAux_all_digits (fuel n : Nat) (hf : n < fuel) :
    ∀ c ∈ natDigitsAux fuel n, c.isDigit = true := by
  induction fuel generalizing n with
  | zero => omega
  | succ f ih =>
    rw [natDigitsAux]
    by_cases h10 : n < 10
    · simp only [if_pos h10]
      intro c hc
      simp only [List.mem_singleton] at hc
      subst hc
      exact digitChar_isDigit n h10
    · simp only [if_neg h10]
      intro c hc
      rcases List.mem_append.mp hc with h1 | h2
      · exact ih (n / 10) (by omega) c h1
      · simp only [List.mem_singleton] at h2
        subst h2
        exact digitChar_isDigit (n % 10) (Nat.mod_lt n (by omega))

theorem generateOTP_length (draw : Nat) : (generateOTP draw).length = 6 := by
  have h1 : (natDigits (draw % 1000000)).length ≤ 6 :=
    length_natDigits_le_six (draw % 1000000)
      (Nat.mod_lt draw (by norm_num))
  simp only [generateOTP, String.length, padStart6, String.mk]
  simp only [List.length_append, List.length_replicate]
  omega

theorem generateOTP_all_digits (draw : Nat) :
    ∀ c ∈ (generateOTP draw).data, c.isDigit = true := by
  intro c hc
  simp only [generateOTP, padStart6] at hc
  rcases List.mem_append.mp hc with h1 | h2
  · have := List.eq_of_mem_replicate h1
    subst this
    decide
  · exact natDigitsAux_all_digits (draw % 1000000 + 1) (draw % 1000000)
      (Nat.lt_succ_self _) c h2

/-- Number of residues `c` hit by `n % 1000000` over `n < N`. -/
theorem card_filter_mod_range (c : Nat) (hc : c < 1000000) (N : Nat) :
    ((Finset.range N).filter (fun n => n % 1000000 = c)).card =
      (N + 999999 - c) / 1000000 := by
  induction N with
  | zero => simp; omega
  | succ m ih =>
    rw [Finset.range_succ, Finset.filter_insert]
    by_cases hm : m % 1000000 = c
    · rw [if_pos hm, Finset.card_insert_of_not_mem (by simp)]
      rw [ih]
      omega
    · rw [if_neg hm, ih]
      omega

theorem card_filter_generateOTP (c : Nat) (hc : c < 1000000) (N : Nat) :
    ((Finset.range N).filter (fun n => generateOTP n = generateOTP c)).card =
      (N + 999999 - c) / 1000000 := by
  have hcongr : (Finset.range N).filter (fun n => generateOTP n = generateOTP c)
      = (Finset.range N).filter (fun n => n % 1000000 = c) := by
    apply Finset.filter_congr
    intro n _
    rw [generateOTP_eq_iff]
    constructor
    · intro h; rw [h]; exact Nat.mod_eq_of_lt hc
    · intro h; rw [h, Nat.mod_eq_of_lt hc]
  rw [hcongr, card_filter_mod_range c hc N]

/-! ### Reachable-state invariants -/

/-- An `otps` row that the issuance lookup regards as active at time `t`:
not used, not locked, not expired. -/
def ActiveAt (t : Int) (r : OtpRecord) : Prop :=
  r.is_used = false ∧ r.is_locked = false ∧ t < r.expires_at

/-- Two rows are not simultaneously active for the same (user, purpose). -/
def Excl (t : Int) (a b : OtpRecord) : Prop :=
  ¬(a.user_id = b.user_id ∧ a.purpose = b.purpose ∧
    ActiveAt t a ∧ ActiveAt t b)

/-- Invariant of every store reachable under a monotone clock whose last
observation is `t`: (expiry bound) every row expires within the 5-minute
TTL of `t`; (lock coherence) a locked row has a non-null `locked_until`
strictly beyond its own expiry; (single-active) no two rows of one
(user, purpose) pair are simultaneously active. -/
def StoreInv (s : SysState) (t : Int) : Prop :=
  (∀ r ∈ s.otps, r.expires_at ≤ t + 5 * 60 * 1000) ∧
  (∀ r ∈ s.otps, r.is_locked = true →
    ∃ lu, r.locked_until = some lu ∧ r.expires_at < lu) ∧
  List.Pairwise (Excl t) s.otps

theorem activeAt_mono {t t' : Int} {r : OtpRecord} (ht : t ≤ t') :
    ActiveAt t' r → ActiveAt t r :=
  fun ⟨h1, h2, h3⟩ => ⟨h1, h2, lt_of_le_of_lt ht h3⟩

theorem excl_mono {t t' : Int} {a b : OtpRecord} (ht : t ≤ t') :
    Excl t a b → Excl t' a b :=
  fun h ⟨h1, h2, h3, h4⟩ =>
    h ⟨h1, h2, activeAt_mono ht h3, activeAt_mono ht h4⟩

theorem excl_symm (t : Int) : Symmetric (Excl t) :=
  fun _ _ h ⟨h1, h2, h3, h4⟩ => h ⟨h1.symm, h2.symm, h4, h3⟩

theorem storeInv_mono {s : SysState} {t t' : Int} (ht : t ≤ t') (h : StoreInv s t) :
    StoreInv s t' :=
  ⟨fun r hr => le_trans (h.1 r hr) (by omega), h.2.1,
   h.2.2.imp (fun hab => excl_mono ht hab)⟩

theorem storeInv_initState (t : Int) : StoreInv initState t := by
  refine ⟨?_, ?_, ?_⟩ <;> simp [initState]

theorem unusedFor_iff (u p : String) (r : OtpRecord) :
    unusedFor u p r = true ↔
      r.user_id = u ∧ r.purpose = p ∧ r.is_used = false := by
  simp [unusedFor, Bool.and_eq_true, and_assoc]

theorem activeFor_iff (u p : String) (now : Int) (r : OtpRecord) :
    activeFor u p now r = true ↔
      r.user_id = u ∧ r.purpose = p ∧ r.is_used = false ∧
        r.is_locked = false ∧ now < r.expires_at := by
  simp [activeFor, Bool.and_eq_true, and_assoc]

theorem pickLatest_mem : ∀ {l : List OtpRecord} {r : OtpRecord},
    pickLatest l = some r → r ∈ l := by
  intro l
  induction l with
  | nil => intro r h; simp [pickLatest] at h
  | cons a rest ih =>
    intro r h
    rw [pickLatest] at h
    split at h
    · injection h with h
      exact h ▸ List.mem_cons_self a rest
    · rename_i b hrest
      split at h
      · injection h with h
        exact h ▸ List.mem_cons_of_mem a (ih hrest)
      · injection h with h
        exact h ▸ List.mem_cons_self a rest

theorem latestUnused_spec {otps : List OtpRecord} {u p : String}
    {r : OtpRecord} (h : latestUnused otps u p = some r) :
    r ∈ otps ∧ unusedFor u p r = true := by
  have := pickLatest_mem h
  exact List.mem_filter.mp this

theorem mem_updateOtp {l : List OtpRecord} {i : Nat}
    {f : OtpRecord → OtpRecord} {x : OtpRecord} :
    x ∈ updateOtp l i f ↔ ∃ y ∈ l, x = if y.id = i then f y else y := by
  simp only [updateOtp, List.mem_map, eq_comm]

theorem expiry_bound_updateOtp {l : List OtpRecord} {B : Int} {i : Nat}
    {f : OtpRecord → OtpRecord}
    (hf : ∀ r, (f r).expires_at = r.expires_at)
    (hK : ∀ r ∈ l, r.expires_at ≤ B) :
    ∀ x ∈ updateOtp l i f, x.expires_at ≤ B := by
  intro x hx
  obtain ⟨y, hy, rfl⟩ := mem_updateOtp.mp hx
  split
  · rw [hf y]; exact hK y hy
  · exact hK y hy

theorem lock_coherent_updateOtp {l : List OtpRecord} {i : Nat}
    {f : OtpRecord → OtpRecord}
    (hJ : ∀ r ∈ l, r.is_locked = true →
      ∃ lu, r.locked_until = some lu ∧ r.expires_at < lu)
    (hf : ∀ r ∈ l, (f r).is_locked = true →
      ∃ lu, (f r).locked_until = some lu ∧ (f r).expires_at < lu) :
    ∀ x ∈ updateOtp l i f, x.is_locked = true →
      ∃ lu, x.locked_until = some lu ∧ x.expires_at < lu := by
  intro x hx
  obtain ⟨y, hy, rfl⟩ := mem_updateOtp.mp hx
  split
  · exact hf y hy
  · exact hJ y hy

theorem pairwise_excl_updateOtp {l : List OtpRecord} {i : Nat}
    {f : OtpRecord → OtpRecord} {t t' : Int} (ht : t ≤ t')
    (hact : ∀ x, ActiveAt t' (f x) → ActiveAt t' x)
    (hpair : ∀ x, (f x).user_id = x.user_id ∧ (f x).purpose = x.purpose)
    (h : List.Pairwise (Excl t) l) :
    List.Pairwise (Excl t') (updateOtp l i f) := by
  unfold updateOtp
  rw [List.pairwise_map]
  refine h.imp ?_
  intro a b hab hcon
  apply hab
  have gua : (if a.id = i then f a else a).user_id = a.user_id := by
    split
    · exact (hpair a).1
    · rfl
  have gpa : (if a.id = i then f a else a).purpose = a.purpose := by
    split
    · exact (hpair a).2
    · rfl
  have gub : (if b.id = i then f b else b).user_id = b.user_id := by
    split
    · exact (hpair b).1
    · rfl
  have gpb : (if b.id = i then f b else b).purpose = b.purpose := by
    split
    · exact (hpair b).2
    · rfl
  have gaa : ActiveAt t' (if a.id = i then f a else a) → ActiveAt t' a := by
    split
    · exact hact a
    · exact id
  have gab : ActiveAt t' (if b.id = i then f b else b) → ActiveAt t' b := by
    split
    · exact hact b
    · exact id
  obtain ⟨h1, h2, h3, h4⟩ := hcon
  rw [gua, gub] at h1
  rw [gpa, gpb] at h2
  exact ⟨h1, h2, activeAt_mono ht (gaa h3), activeAt_mono ht (gab h4)⟩


theorem bool_eq_false_of_ne_true {b : Bool} (h : ¬b = true) : b = false := by
  cases b
  · rfl
  · exact absurd rfl h

/-! ### Branch equations for the two endpoints -/

theorem checkRateLimits_userLimited (s : SysState) (u ip : String)
    (now : Int)
    (hu : 3 ≤ (s.userRateLimits.filter
      (qualifies u (now - 15 * 60 * 1000))).length) :
    checkRateLimits s u ip now =
      .error (ceilDiv1000 (minTs (s.userRateLimits.filter
        (qualifies u (now - 15 * 60 * 1000))) + 15 * 60 * 1000 - now)) := by
  unfold checkRateLimits
  rw [if_pos hu]

theorem checkRateLimits_ipLimited (s : SysState) (u ip : String) (now : Int)
    (hu : (s.userRateLimits.filter
      (qualifies u (now - 15 * 60 * 1000))).length < 3)
    (hip : 8 ≤ (s.ipRateLimits.filter
      (qualifies ip (now - 15 * 60 * 1000))).length) :
    checkRateLimits s u ip now =
      .error (ceilDiv1000 (minTs (s.ipRateLimits.filter
        (qualifies ip (now - 15 * 60 * 1000))) + 15 * 60 * 1000 - now)) := by
  unfold checkRateLimits
  rw [if_neg (by omega), if_pos hip]

theorem checkRateLimits_admitted (s : SysState) (u ip : String) (now : Int)
    (hu : (s.userRateLimits.filter
      (qualifies u (now - 15 * 60 * 1000))).length < 3)
    (hip : (s.ipRateLimits.filter
      (qualifies ip (now - 15 * 60 * 1000))).length < 8) :
    checkRateLimits s u ip now =
      .ok ({ s with
              userRateLimits := s.userRateLimits ++ [(u, now)],
              ipRateLimits := s.ipRateLimits ++ [(ip, now)] },
           3 - (s.userRateLimits.filter
             (qualifies u (now - 15 * 60 * 1000))).length - 1,
           8 - (s.ipRateLimits.filter
             (qualifies ip (now - 15 * 60 * 1000))).length - 1) := by
  unfold checkRateLimits
  rw [if_neg (by omega), if_neg (by omega)]

theorem otpRequest_replay_eq {s : SysState} {u p key ip : String}
    {draw : Nat} {now : Int} {rec : IdemRecord}
    (h : s.idempotencyKeys.find?
      (fun r => r.key == key && decide (now < r.expires_at)) = some rec) :
    otpRequest s u p key ip draw now = (.replay rec.response, s) := by
  unfold otpRequest
  rw [h]

theorem otpRequest_rateLimited_eq {s : SysState} {u p key ip : String}
    {draw : Nat} {now : Int} {cd : Int}
    (hidem : s.idempotencyKeys.find?
      (fun r => r.key == key && decide (now < r.expires_at)) = none)
    (hcr : checkRateLimits s u ip now = .error cd) :
    otpRequest s u p key ip draw now = (.rateLimited cd, s) := by
  unfold otpRequest
  rw [hidem, hcr]

theorem otpRequestInsert_insVio_eq {s0 s2 : SysState} {u p key : String}
    {draw userRemaining : Nat} {now : Int}
    (hins : insertViolatesKey s2.otps (newOtpRecord s2 u p draw now)
      = true) :
    otpRequestInsert s0 s2 u p key draw userRemaining now =
      (.internalError, s0) := by
  unfold otpRequestInsert
  simp only [hins, if_true]

theorem otpRequestInsert_dupKey_eq {s0 s2 : SysState} {u p key : String}
    {draw userRemaining : Nat} {now : Int}
    (hins : insertViolatesKey s2.otps (newOtpRecord s2 u p draw now)
      = false)
    (hdup : s2.idempotencyKeys.any (fun r => r.key == key) = true) :
    otpRequestInsert s0 s2 u p key draw userRemaining now =
      (.internalError, s0) := by
  unfold otpRequestInsert
  simp only [hins, Bool.false_eq_true, if_false, hdup, if_true]

theorem otpRequestInsert_blocked_eq {s0 s2 : SysState} {u p key : String}
    {draw userRemaining : Nat} {now : Int}
    (hdup : s2.idempotencyKeys.any (fun r => r.key == key) = true) :
    otpRequestInsert s0 s2 u p key draw userRemaining now =
      (.internalError, s0) := by
  by_cases hins : insertViolatesKey s2.otps (newOtpRecord s2 u p draw now)
      = true
  · exact otpRequestInsert_insVio_eq hins
  · exact otpRequestInsert_dupKey_eq (bool_eq_false_of_ne_true hins) hdup

theorem otpRequestInsert_ok_eq {s0 s2 : SysState} {u p key : String}
    {draw userRemaining : Nat} {now : Int}
    (hins : insertViolatesKey s2.otps (newOtpRecord s2 u p draw now)
      = false)
    (hdup : s2.idempotencyKeys.any (fun r => r.key == key) = false) :
    otpRequestInsert s0 s2 u p key draw userRemaining now =
      (.ok { otp_id := s2.nextOtpId, ttl := 300,
             remaining_requests := userRemaining },
       { s2 with
          otps := s2.otps ++ [newOtpRecord s2 u p draw now],
          nextOtpId := s2.nextOtpId + 1,
          idempotencyKeys := s2.idempotencyKeys ++
            [{ key := key, user_id := u, purpose := p,
               response := { otp_id := s2.nextOtpId, ttl := 300,
                             remaining_requests := userRemaining },
               expires_at := now + 10 * 60 * 1000 }] }) := by
  unfold otpRequestInsert
  simp only [hins, hdup, Bool.false_eq_true, if_false]

theorem otpRequest_found_eq {s : SysState} {u p key ip : String}
    {draw : Nat} {now : Int} {s1 : SysState} {ur ir : Nat} {ex : OtpRecord}
    (hidem : s.idempotencyKeys.find?
      (fun r => r.key == key && decide (now < r.expires_at)) = none)
    (hcr : checkRateLimits s u ip now = .ok (s1, ur, ir))
    (hfind : s1.otps.find? (activeFor u p now) = some ex)
    (hupd : updateViolatesKey s1.otps ex.id markUsedRow = false) :
    otpRequest s u p key ip draw now =
      otpRequestInsert s
        { s1 with otps := updateOtp s1.otps ex.id markUsedRow }
        u p key draw ur now := by
  unfold otpRequest
  rw [hidem, hcr]
  simp only [hfind, hupd, Bool.false_eq_true, if_false]

theorem otpRequest_foundVio_eq {s : SysState} {u p key ip : String}
    {draw : Nat} {now : Int} {s1 : SysState} {ur ir : Nat} {ex : OtpRecord}
    (hidem : s.idempotencyKeys.find?
      (fun r => r.key == key && decide (now < r.expires_at)) = none)
    (hcr : checkRateLimits s u ip now = .ok (s1, ur, ir))
    (hfind : s1.otps.find? (activeFor u p now) = some ex)
    (hupd : updateViolatesKey s1.otps ex.id markUsedRow = true) :
    otpRequest s u p key ip draw now = (.internalError, s) := by
  unfold otpRequest
  rw [hidem, hcr]
  simp only [hfind, hupd, if_true]

theorem otpRequest_notFound_eq {s : SysState} {u p key ip : String}
    {draw : Nat} {now : Int} {s1 : SysState} {ur ir : Nat}
    (hidem : s.idempotencyKeys.find?
      (fun r => r.key == key && decide (now < r.expires_at)) = none)
    (hcr : checkRateLimits s u ip now = .ok (s1, ur, ir))
    (hfind : s1.otps.find? (activeFor u p now) = none) :
    otpRequest s u p key ip draw now =
      otpRequestInsert s s1 u p key draw ur now := by
  unfold otpRequest
  rw [hidem, hcr]
  simp only [hfind]

/-- End-to-end equation: admitted issuance that invalidates an active row
and succeeds (no duplicate-key error anywhere). -/
theorem otpRequest_ok_found_eq {s : SysState} {u p key ip : String}
    {draw : Nat} {now : Int} {ex : OtpRecord}
    (hidem : s.idempotencyKeys.find?
      (fun r => r.key == key && decide (now < r.expires_at)) = none)
    (hu : (s.userRateLimits.filter
      (qualifies u (now - 15 * 60 * 1000))).length < 3)
    (hip : (s.ipRateLimits.filter
      (qualifies ip (now - 15 * 60 * 1000))).length < 8)
    (hfind : s.otps.find? (activeFor u p now) = some ex)
    (hupd : updateViolatesKey s.otps ex.id markUsedRow = false)
    (hins : insertViolatesKey (updateOtp s.otps ex.id markUsedRow)
      (newOtpRecord s u p draw now) = false)
    (hdup : s.idempotencyKeys.any (fun r => r.key == key) = false) :
    otpRequest s u p key ip draw now =
      (.ok { otp_id := s.nextOtpId, ttl := 300,
             remaining_requests := 3 - (s.userRateLimits.filter
               (qualifies u (now - 15 * 60 * 1000))).length - 1 },
       { otps := updateOtp s.otps ex.id markUsedRow ++
           [newOtpRecord s u p draw now],
         userRateLimits := s.userRateLimits ++ [(u, now)],
         ipRateLimits := s.ipRateLimits ++ [(ip, now)],
         idempotencyKeys := s.idempotencyKeys ++
           [{ key := key, user_id := u, purpose := p,
              response := { otp_id := s.nextOtpId, ttl := 300,
                            remaining_requests :=
                              3 - (s.userRateLimits.filter
                                (qualifies u (now - 15 * 60 * 1000))).length
                                - 1 },
              expires_at := now + 10 * 60 * 1000 }],
         nextOtpId := s.nextOtpId + 1 }) := by
  have hcr := checkRateLimits_admitted s u ip now hu hip
  have hfind' : (({ s with
      userRateLimits := s.userRateLimits ++ [(u, now)],
      ipRateLimits := s.ipRateLimits ++ [(ip, now)] } :
        SysState)).otps.find? (activeFor u p now) = some ex := hfind
  rw [otpRequest_found_eq hidem hcr hfind' hupd]
  exact otpRequestInsert_ok_eq hins hdup

/-- End-to-end equation: admitted issuance with no active row to
invalidate, succeeding. -/
theorem otpRequest_ok_notFound_eq {s : SysState} {u p key ip : String}
    {draw : Nat} {now : Int}
    (hidem : s.idempotencyKeys.find?
      (fun r => r.key == key && decide (now < r.expires_at)) = none)
    (hu : (s.userRateLimits.filter
      (qualifies u (now - 15 * 60 * 1000))).length < 3)
    (hip : (s.ipRateLimits.filter
      (qualifies ip (now - 15 * 60 * 1000))).length < 8)
    (hfind : s.otps.find? (activeFor u p now) = none)
    (hins : insertViolatesKey s.otps (newOtpRecord s u p draw now) = false)
    (hdup : s.idempotencyKeys.any (fun r => r.key == key) = false) :
    otpRequest s u p key ip draw now =
      (.ok { otp_id := s.nextOtpId, ttl := 300,
             remaining_requests := 3 - (s.userRateLimits.filter
               (qualifies u (now - 15 * 60 * 1000))).length - 1 },
       { otps := s.otps ++ [newOtpRecord s u p draw now],
         userRateLimits := s.userRateLimits ++ [(u, now)],
         ipRateLimits := s.ipRateLimits ++ [(ip, now)],
         idempotencyKeys := s.idempotencyKeys ++
           [{ key := key, user_id := u, purpose := p,
              response := { otp_id := s.nextOtpId, ttl := 300,
                            remaining_requests :=
                              3 - (s.userRateLimits.filter
                                (qualifies u (now - 15 * 60 * 1000))).length
                                - 1 },
              expires_at := now + 10 * 60 * 1000 }],
         nextOtpId := s.nextOtpId + 1 }) := by
  have hcr := checkRateLimits_admitted s u ip now hu hip
  have hfind' : (({ s with
      userRateLimits := s.userRateLimits ++ [(u, now)],
      ipRateLimits := s.ipRateLimits ++ [(ip, now)] } :
        SysState)).otps.find? (activeFor u p now) = none := hfind
  rw [otpRequest_notFound_eq hidem hcr hfind']
  exact otpRequestInsert_ok_eq hins hdup

/-- End-to-end equation: the invalidation UPDATE hits
`uk_user_purpose_active`; the transaction rolls back. -/
theorem otpRequest_err_updVio_eq {s : SysState} {u p key ip : String}
    {draw : Nat} {now : Int} {ex : OtpRecord}
    (hidem : s.idempotencyKeys.find?
      (fun r => r.key == key && decide (now < r.expires_at)) = none)
    (hu : (s.userRateLimits.filter
      (qualifies u (now - 15 * 60 * 1000))).length < 3)
    (hip : (s.ipRateLimits.filter
      (qualifies ip (now - 15 * 60 * 1000))).length < 8)
    (hfind : s.otps.find? (activeFor u p now) = some ex)
    (hupd : updateViolatesKey s.otps ex.id markUsedRow = true) :
    otpRequest s u p key ip draw now = (.internalError, s) := by
  have hcr := checkRateLimits_admitted s u ip now hu hip
  have hfind' : (({ s with
      userRateLimits := s.userRateLimits ++ [(u, now)],
      ipRateLimits := s.ipRateLimits ++ [(ip, now)] } :
        SysState)).otps.find? (activeFor u p now) = some ex := hfind
  exact otpRequest_foundVio_eq hidem hcr hfind' hupd

/-- End-to-end equation: the new-row INSERT hits `uk_user_purpose_active`
after an invalidation; the transaction rolls back. -/
theorem otpRequest_err_insVio_found_eq {s : SysState} {u p key ip : String}
    {draw : Nat} {now : Int} {ex : OtpRecord}
    (hidem : s.idempotencyKeys.find?
      (fun r => r.key == key && decide (now < r.expires_at)) = none)
    (hu : (s.userRateLimits.filter
      (qualifies u (now - 15 * 60 * 1000))).length < 3)
    (hip : (s.ipRateLimits.filter
      (qualifies ip (now - 15 * 60 * 1000))).length < 8)
    (hfind : s.otps.find? (activeFor u p now) = some ex)
    (hupd : updateViolatesKey s.otps ex.id markUsedRow = false)
    (hins : insertViolatesKey (updateOtp s.otps ex.id markUsedRow)
      (newOtpRecord s u p draw now) = true) :
    otpRequest s u p key ip draw now = (.internalError, s) := by
  have hcr := checkRateLimits_admitted s u ip now hu hip
  have hfind' : (({ s with
      userRateLimits := s.userRateLimits ++ [(u, now)],
      ipRateLimits := s.ipRateLimits ++ [(ip, now)] } :
        SysState)).otps.find? (activeFor u p now) = some ex := hfind
  rw [otpRequest_found_eq hidem hcr hfind' hupd]
  exact otpRequestInsert_insVio_eq hins

/-- End-to-end equation: the new-row INSERT hits `uk_user_purpose_active`
with no invalidation; the transaction rolls back. -/
theorem otpRequest_err_insVio_notFound_eq {s : SysState}
    {u p key ip : String} {draw : Nat} {now : Int}
    (hidem : s.idempotencyKeys.find?
      (fun r => r.key == key && decide (now < r.expires_at)) = none)
    (hu : (s.userRateLimits.filter
      (qualifies u (now - 15 * 60 * 1000))).length < 3)
    (hip : (s.ipRateLimits.filter
      (qualifies ip (now - 15 * 60 * 1000))).length < 8)
    (hfind : s.otps.find? (activeFor u p now) = none)
    (hins : insertViolatesKey s.otps (newOtpRecord s u p draw now)
      = true) :
    otpRequest s u p key ip draw now = (.internalError, s) := by
  have hcr := checkRateLimits_admitted s u ip now hu hip
  have hfind' : (({ s with
      userRateLimits := s.userRateLimits ++ [(u, now)],
      ipRateLimits := s.ipRateLimits ++ [(ip, now)] } :
        SysState)).otps.find? (activeFor u p now) = none := hfind
  rw [otpRequest_notFound_eq hidem hcr hfind']
  exact otpRequestInsert_insVio_eq hins

/-- End-to-end equation: an admitted issuance whose key still exists in
the idempotency table (necessarily expired, given the lookup missed)
fails — at the idempotency PRIMARY KEY, or earlier at the otps unique
key — and rolls back. -/
theorem otpRequest_err_dupKey_eq {s : SysState} {u p key ip : String}
    {draw : Nat} {now : Int}
    (hidem : s.idempotencyKeys.find?
      (fun r => r.key == key && decide (now < r.expires_at)) = none)
    (hu : (s.userRateLimits.filter
      (qualifies u (now - 15 * 60 * 1000))).length < 3)
    (hip : (s.ipRateLimits.filter
      (qualifies ip (now - 15 * 60 * 1000))).length < 8)
    (hexists : s.idempotencyKeys.any (fun r => r.key == key) = true) :
    otpRequest s u p key ip draw now = (.internalError, s) := by
  have hcr := checkRateLimits_admitted s u ip now hu hip
  cases hfind : s.otps.find? (activeFor u p now) with
  | some ex =>
    have hfind' : (({ s with
        userRateLimits := s.userRateLimits ++ [(u, now)],
        ipRateLimits := s.ipRateLimits ++ [(ip, now)] } :
          SysState)).otps.find? (activeFor u p now) = some ex := hfind
    by_cases hupd : updateViolatesKey s.otps ex.id markUsedRow = true
    · exact otpRequest_foundVio_eq hidem hcr hfind' hupd
    · rw [otpRequest_found_eq hidem hcr hfind'
        (bool_eq_false_of_ne_true hupd)]
      exact otpRequestInsert_blocked_eq hexists
  | none =>
    have hfind' : (({ s with
        userRateLimits := s.userRateLimits ++ [(u, now)],
        ipRateLimits := s.ipRateLimits ++ [(ip, now)] } :
          SysState)).otps.find? (activeFor u p now) = none := hfind
    rw [otpRequest_notFound_eq hidem hcr hfind']
    exact otpRequestInsert_blocked_eq hexists

theorem otpVerify_notFound_eq {s : SysState} {u p code : String} {now : Int}
    (h : latestUnused s.otps u p = none) :
    otpVerify s u p code now = (.notFound, s) := by
  unfold otpVerify
  rw [h]

theorem otpVerify_expired_eq {s : SysState} {u p code : String} {now : Int}
    {otp : OtpRecord} (h : latestUnused s.otps u p = some otp)
    (hexp : otp.expires_at < now)
    (hvio : updateViolatesKey s.otps otp.id markUsedRow = false) :
    otpVerify s u p code now =
      (.expired, { s with otps := updateOtp s.otps otp.id markUsedRow }) := by
  unfold otpVerify
  rw [h]
  simp only [if_pos hexp, hvio, Bool.false_eq_true, if_false]

theorem otpVerify_expiredVio_eq {s : SysState} {u p code : String}
    {now : Int} {otp : OtpRecord} (h : latestUnused s.otps u p = some otp)
    (hexp : otp.expires_at < now)
    (hvio : updateViolatesKey s.otps otp.id markUsedRow = true) :
    otpVerify s u p code now = (.internalError, s) := by
  unfold otpVerify
  rw [h]
  simp only [if_pos hexp, hvio, if_true]

theorem otpVerify_locked_eq {s : SysState} {u p code : String} {now : Int}
    {otp : OtpRecord} {l : Int} (h : latestUnused s.otps u p = some otp)
    (hexp : ¬otp.expires_at < now) (hlu : otp.locked_until = some l)
    (hlock : otp.is_locked = true) (hfut : now < l) :
    otpVerify s u p code now =
      (.tooManyAttempts (ceilDiv1000 (l - now)), s) := by
  unfold otpVerify
  rw [h]
  simp only [if_neg hexp, hlu, hlock, hfut, decide_True, Bool.true_and,
    if_true]

theorem otpVerify_unlock_eq {s : SysState} {u p code : String} {now : Int}
    {otp : OtpRecord} {l : Int} (h : latestUnused s.otps u p = some otp)
    (hexp : ¬otp.expires_at < now) (hlu : otp.locked_until = some l)
    (hlock : otp.is_locked = true) (hpast : l ≤ now)
    (hvio : updateViolatesKey s.otps otp.id unlockRow = false) :
    otpVerify s u p code now =
      finishVerify s { s with otps := updateOtp s.otps otp.id unlockRow }
        (unlockRow otp) code now := by
  unfold otpVerify
  rw [h]
  have h1 : ¬now < l := by omega
  simp only [if_neg hexp, hlu, hlock, h1, hpast, decide_True, decide_False,
    Bool.true_and, Bool.false_eq_true, if_false, if_true, hvio]

theorem otpVerify_plain_eq {s : SysState} {u p code : String} {now : Int}
    {otp : OtpRecord} (h : latestUnused s.otps u p = some otp)
    (hexp : ¬otp.expires_at < now)
    (hcase : otp.locked_until = none ∨ otp.is_locked = false) :
    otpVerify s u p code now = finishVerify s s otp code now := by
  unfold otpVerify
  rw [h]
  rcases hcase with hnone | hunlocked
  · simp only [if_neg hexp, hnone]
  · cases hlu : otp.locked_until with
    | none => simp only [if_neg hexp, hlu]
    | some l =>
      simp only [if_neg hexp, hlu, hunlocked, Bool.false_and,
        Bool.false_eq_true, if_false]

theorem keyTuple_bumpRow (n : Nat) (r : OtpRecord) :
    keyTuple (bumpRow n r) = keyTuple r := rfl

/-- The attempt-count UPDATE touches no column of `uk_user_purpose_active`,
so it can never raise ER_DUP_ENTRY. -/
theorem updateViolatesKey_bumpRow (l : List OtpRecord) (i n : Nat) :
    updateViolatesKey l i (bumpRow n) = false := by
  unfold updateViolatesKey
  rw [← Bool.not_eq_true, List.any_eq_true]
  rintro ⟨r, hr, hcon⟩
  rw [Bool.and_eq_true, Bool.and_eq_true] at hcon
  have h2 := hcon.1.2
  rw [keyTuple_bumpRow] at h2
  simp at h2

theorem finishVerify_usedCheck_eq {s0 s : SysState} {otp : OtpRecord}
    {code : String} {now : Int} (h : otp.is_used = true) :
    finishVerify s0 s otp code now = (.codeUsed, s) := by
  unfold finishVerify
  rw [h]
  simp only [if_true]

theorem finishVerify_success_eq {s0 s : SysState} {otp : OtpRecord}
    {code : String} {now : Int} (hused : otp.is_used = false)
    (hcode : otp.code = code)
    (hany : s.otps.any (fun r => r.id == otp.id && !r.is_used) = true)
    (hvio : updateViolatesKey s.otps otp.id markUsedIfUnusedRow = false) :
    finishVerify s0 s otp code now =
      (.success,
       { s with otps := updateOtp s.otps otp.id markUsedIfUnusedRow }) := by
  unfold finishVerify
  simp only [hused, Bool.false_eq_true, if_false, hcode, beq_self_eq_true,
    if_true, hany, hvio]

theorem finishVerify_successVio_eq {s0 s : SysState} {otp : OtpRecord}
    {code : String} {now : Int} (hused : otp.is_used = false)
    (hcode : otp.code = code)
    (hany : s.otps.any (fun r => r.id == otp.id && !r.is_used) = true)
    (hvio : updateViolatesKey s.otps otp.id markUsedIfUnusedRow = true) :
    finishVerify s0 s otp code now = (.internalError, s0) := by
  unfold finishVerify
  simp only [hused, Bool.false_eq_true, if_false, hcode, beq_self_eq_true,
    if_true, hany, hvio]

theorem finishVerify_cas_failed_eq {s0 s : SysState} {otp : OtpRecord}
    {code : String} {now : Int} (hused : otp.is_used = false)
    (hcode : otp.code = code)
    (hany : s.otps.any (fun r => r.id == otp.id && !r.is_used) = false) :
    finishVerify s0 s otp code now = (.codeUsed, s) := by
  unfold finishVerify
  simp only [hused, Bool.false_eq_true, if_false, hcode, beq_self_eq_true,
    if_true, hany]

theorem finishVerify_lock_eq {s0 s : SysState} {otp : OtpRecord}
    {code : String} {now : Int} (hused : otp.is_used = false)
    (hcode : otp.code ≠ code) (hcnt : 3 ≤ otp.attempt_count + 1)
    (hvio : updateViolatesKey s.otps otp.id
      (lockRow (otp.attempt_count + 1) (now + 10 * 60 * 1000)) = false) :
    finishVerify s0 s otp code now =
      (.tooManyAttempts 600,
       { s with otps := (updateOtp s.otps otp.id
          (lockRow (otp.attempt_count + 1) (now + 10 * 60 * 1000))) }) := by
  unfold finishVerify
  have hb : (otp.code == code) = false := by
    simp [hcode]
  simp only [hused, Bool.false_eq_true, if_false, hb, hcnt, if_true,
    ge_iff_le, if_pos hcnt, hvio]

theorem finishVerify_lockVio_eq {s0 s : SysState} {otp : OtpRecord}
    {code : String} {now : Int} (hused : otp.is_used = false)
    (hcode : otp.code ≠ code) (hcnt : 3 ≤ otp.attempt_count + 1)
    (hvio : updateViolatesKey s.otps otp.id
      (lockRow (otp.attempt_count + 1) (now + 10 * 60 * 1000)) = true) :
    finishVerify s0 s otp code now = (.internalError, s0) := by
  unfold finishVerify
  have hb : (otp.code == code) = false := by
    simp [hcode]
  simp only [hused, Bool.false_eq_true, if_false, hb, hcnt, if_true,
    ge_iff_le, if_pos hcnt, hvio]

theorem finishVerify_bump_eq {s0 s : SysState} {otp : OtpRecord}
    {code : String} {now : Int} (hused : otp.is_used = false)
    (hcode : otp.code ≠ code) (hcnt : otp.attempt_count + 1 < 3) :
    finishVerify s0 s otp code now =
      (.invalidCode (3 - (otp.attempt_count + 1)),
       { s with otps := (updateOtp s.otps otp.id
          (bumpRow (otp.attempt_count + 1))) }) := by
  unfold finishVerify
  have hb : (otp.code == code) = false := by
    simp [hcode]
  have hn : ¬3 ≤ otp.attempt_count + 1 := by omega
  simp only [hused, Bool.false_eq_true, if_false, hb, ge_iff_le,
    if_neg hn, updateViolatesKey_bumpRow]

/-! ### Preservation of the invariant by each endpoint -/


theorem finishVerify_inv {s0 s : SysState} {otp : OtpRecord}
    {code : String} {now t : Int} (h0 : StoreInv s0 t)
    (hInv : StoreInv s t) (ht : t ≤ now) :
    StoreInv (finishVerify s0 s otp code now).2 now := by
  have hK : ∀ r ∈ s.otps, r.expires_at ≤ now + 5 * 60 * 1000 :=
    fun r hr => le_trans (hInv.1 r hr) (by omega)
  by_cases hused : otp.is_used = true
  · rw [finishVerify_usedCheck_eq hused]
    exact storeInv_mono ht hInv
  · have hused' := bool_eq_false_of_ne_true hused
    by_cases hcode : otp.code = code
    · by_cases hany : s.otps.any (fun r => r.id == otp.id && !r.is_used) = true
      · by_cases hvio : updateViolatesKey s.otps otp.id markUsedIfUnusedRow
            = true
        · rw [finishVerify_successVio_eq hused' hcode hany hvio]
          exact storeInv_mono ht h0
        · rw [finishVerify_success_eq hused' hcode hany
            (bool_eq_false_of_ne_true hvio)]
          refine ⟨?_, ?_, ?_⟩
          · exact expiry_bound_updateOtp
              (fun r => by unfold markUsedIfUnusedRow; split <;> rfl) hK
          · refine lock_coherent_updateOtp hInv.2.1 ?_
            intro r hr
            unfold markUsedIfUnusedRow
            split
            · exact hInv.2.1 r hr
            · exact hInv.2.1 r hr
          · refine pairwise_excl_updateOtp ht ?_ ?_ hInv.2.2
            · intro x hx
              unfold markUsedIfUnusedRow at hx
              split at hx
              · exact hx
              · exact absurd hx.1 (by simp)
            · intro x
              unfold markUsedIfUnusedRow
              split <;> exact ⟨rfl, rfl⟩
      · rw [finishVerify_cas_failed_eq hused' hcode
          (bool_eq_false_of_ne_true hany)]
        exact storeInv_mono ht hInv
    · by_cases hcnt : 3 ≤ otp.attempt_count + 1
      · by_cases hvio : updateViolatesKey s.otps otp.id
            (lockRow (otp.attempt_count + 1) (now + 10 * 60 * 1000)) = true
        · rw [finishVerify_lockVio_eq hused' hcode hcnt hvio]
          exact storeInv_mono ht h0
        · rw [finishVerify_lock_eq hused' hcode hcnt
            (bool_eq_false_of_ne_true hvio)]
          refine ⟨?_, ?_, ?_⟩
          · exact expiry_bound_updateOtp (fun r => rfl) hK
          · refine lock_coherent_updateOtp hInv.2.1 ?_
            intro r hr _
            refine ⟨now + 10 * 60 * 1000, rfl, ?_⟩
            have := hK r hr
            simp only [lockRow]
            omega
          · refine pairwise_excl_updateOtp ht ?_ ?_ hInv.2.2
            · intro x hx
              exact absurd hx.2.1 (by simp [lockRow])
            · intro x
              exact ⟨rfl, rfl⟩
      · rw [finishVerify_bump_eq hused' hcode (by omega)]
        refine ⟨?_, ?_, ?_⟩
        · exact expiry_bound_updateOtp (fun r => rfl) hK
        · exact lock_coherent_updateOtp hInv.2.1
            (fun r hr => hInv.2.1 r hr)
        · refine pairwise_excl_updateOtp ht ?_ ?_ hInv.2.2
          · intro x hx
            exact hx
          · intro x
            exact ⟨rfl, rfl⟩

theorem otpVerify_inv {s : SysState} {u p code : String} {now t : Int}
    (hInv : StoreInv s t) (ht : t ≤ now) :
    StoreInv (otpVerify s u p code now).2 now := by
  have hK : ∀ r ∈ s.otps, r.expires_at ≤ now + 5 * 60 * 1000 :=
    fun r hr => le_trans (hInv.1 r hr) (by omega)
  cases hlat : latestUnused s.otps u p with
  | none =>
    rw [otpVerify_notFound_eq hlat]
    exact storeInv_mono ht hInv
  | some otp =>
    obtain ⟨hmem, hpred⟩ := latestUnused_spec hlat
    by_cases hexp : otp.expires_at < now
    · by_cases hvio : updateViolatesKey s.otps otp.id markUsedRow = true
      · rw [otpVerify_expiredVio_eq hlat hexp hvio]
        exact storeInv_mono ht hInv
      · rw [otpVerify_expired_eq hlat hexp (bool_eq_false_of_ne_true hvio)]
        refine ⟨?_, ?_, ?_⟩
        · exact expiry_bound_updateOtp (fun r => rfl) hK
        · exact lock_coherent_updateOtp hInv.2.1
            (fun r hr => hInv.2.1 r hr)
        · refine pairwise_excl_updateOtp ht ?_ ?_ hInv.2.2
          · intro x hx
            exact absurd hx.1 (by simp [markUsedRow])
          · intro x
            exact ⟨rfl, rfl⟩
    · cases hlu : otp.locked_until with
      | none =>
        rw [otpVerify_plain_eq hlat hexp (Or.inl hlu)]
        exact finishVerify_inv hInv hInv ht
      | some l =>
        by_cases hlock : otp.is_locked = true
        · by_cases hfut : now < l
          · rw [otpVerify_locked_eq hlat hexp hlu hlock hfut]
            exact storeInv_mono ht hInv
          · -- elapsed lock: impossible, since lock coherence places
            -- locked_until strictly beyond the expiry that has not passed
            obtain ⟨lu, hlu', hgt⟩ := hInv.2.1 otp hmem hlock
            rw [hlu] at hlu'
            injection hlu' with hlu'
            exact absurd (by omega : otp.expires_at < now) hexp
        · rw [otpVerify_plain_eq hlat hexp
            (Or.inr (bool_eq_false_of_ne_true hlock))]
          exact finishVerify_inv hInv hInv ht

theorem otpRequestInsert_inv {s0 s2 : SysState} {u p key : String}
    {draw userRemaining : Nat} {now t : Int} (h0 : StoreInv s0 t)
    (ht : t ≤ now)
    (hK2 : ∀ r ∈ s2.otps, r.expires_at ≤ now + 5 * 60 * 1000)
    (hJ2 : ∀ r ∈ s2.otps, r.is_locked = true →
      ∃ lu, r.locked_until = some lu ∧ r.expires_at < lu)
    (hP2 : List.Pairwise (Excl now) s2.otps)
    (hcross : ∀ a ∈ s2.otps, a.user_id = u → a.purpose = p →
      ¬ActiveAt now a) :
    StoreInv (otpRequestInsert s0 s2 u p key draw userRemaining now).2
      now := by
  by_cases hins : insertViolatesKey s2.otps (newOtpRecord s2 u p draw now)
      = true
  · rw [otpRequestInsert_insVio_eq hins]
    exact storeInv_mono ht h0
  · by_cases hdup : s2.idempotencyKeys.any (fun r => r.key == key) = true
    · rw [otpRequestInsert_dupKey_eq (bool_eq_false_of_ne_true hins) hdup]
      exact storeInv_mono ht h0
    · rw [otpRequestInsert_ok_eq (bool_eq_false_of_ne_true hins)
        (bool_eq_false_of_ne_true hdup)]
      refine ⟨?_, ?_, ?_⟩
      · intro x hx
        rcases List.mem_append.mp hx with h1 | h2
        · exact hK2 x h1
        · simp only [List.mem_singleton] at h2
          subst h2
          simp [newOtpRecord]
      · intro x hx
        rcases List.mem_append.mp hx with h1 | h2
        · exact hJ2 x h1
        · simp only [List.mem_singleton] at h2
          subst h2
          intro hcon
          simp [newOtpRecord] at hcon
      · rw [List.pairwise_append]
        refine ⟨hP2, List.pairwise_singleton _ _, ?_⟩
        intro a ha b hb hcon
        simp only [List.mem_singleton] at hb
        subst hb
        obtain ⟨hu2, hp2, haact, hbact⟩ := hcon
        simp only [newOtpRecord] at hu2 hp2
        exact hcross a ha hu2 hp2 haact

theorem otpRequest_inv {s : SysState} {u p key ip : String} {draw : Nat}
    {now t : Int} (hInv : StoreInv s t) (ht : t ≤ now) :
    StoreInv (otpRequest s u p key ip draw now).2 now := by
  have hK : ∀ r ∈ s.otps, r.expires_at ≤ now + 5 * 60 * 1000 :=
    fun r hr => le_trans (hInv.1 r hr) (by omega)
  cases hidem : s.idempotencyKeys.find?
      (fun r => r.key == key && decide (now < r.expires_at)) with
  | some rec =>
    rw [otpRequest_replay_eq hidem]
    exact storeInv_mono ht hInv
  | none =>
    by_cases hu : (s.userRateLimits.filter
        (qualifies u (now - 15 * 60 * 1000))).length < 3
    · by_cases hip : (s.ipRateLimits.filter
          (qualifies ip (now - 15 * 60 * 1000))).length < 8
      · have hcr := checkRateLimits_admitted s u ip now hu hip
        cases hfind : (({ s with
            userRateLimits := s.userRateLimits ++ [(u, now)],
            ipRateLimits := s.ipRateLimits ++ [(ip, now)] } :
              SysState)).otps.find? (activeFor u p now) with
        | some ex =>
          have hfind' : s.otps.find? (activeFor u p now) = some ex := hfind
          have hexmem : ex ∈ s.otps := List.mem_of_find?_eq_some hfind'
          have hexpred := List.find?_some hfind'
          rw [activeFor_iff] at hexpred
          by_cases hupd : updateViolatesKey s.otps ex.id markUsedRow = true
          · rw [otpRequest_foundVio_eq hidem hcr hfind hupd]
            exact storeInv_mono ht hInv
          · rw [otpRequest_found_eq hidem hcr hfind
              (bool_eq_false_of_ne_true hupd)]
            refine otpRequestInsert_inv hInv ht ?_ ?_ ?_ ?_
            · exact expiry_bound_updateOtp (f := markUsedRow)
                (fun r => rfl) hK
            · exact lock_coherent_updateOtp (f := markUsedRow) hInv.2.1
                (fun r hr => hInv.2.1 r hr)
            · refine pairwise_excl_updateOtp ht ?_ ?_ hInv.2.2
              · intro x hx
                exact absurd hx.1 (by simp [markUsedRow])
              · intro x
                exact ⟨rfl, rfl⟩
            · intro a ha hu2 hp2 haact
              obtain ⟨y, hy, hay⟩ := mem_updateOtp.mp ha
              by_cases hid : y.id = ex.id
              · rw [if_pos hid] at hay
                rw [hay] at haact
                exact absurd haact.1 (by simp [markUsedRow])
              · rw [if_neg hid] at hay
                rw [hay] at haact hu2 hp2
                have hne : y ≠ ex := fun hcon' => hid (by rw [hcon'])
                have hexcl := (hInv.2.2).forall (excl_symm t) hy hexmem hne
                refine hexcl ⟨?_, ?_, activeAt_mono ht haact, ?_⟩
                · rw [hu2, hexpred.1]
                · rw [hp2, hexpred.2.1]
                · exact activeAt_mono ht
                    ⟨hexpred.2.2.1, hexpred.2.2.2.1, hexpred.2.2.2.2⟩
        | none =>
          have hfind' : s.otps.find? (activeFor u p now) = none := hfind
          have hnone := List.find?_eq_none.mp hfind'
          rw [otpRequest_notFound_eq hidem hcr hfind]
          refine otpRequestInsert_inv hInv ht hK hInv.2.1
            (hInv.2.2.imp (fun hab => excl_mono ht hab)) ?_
          intro a ha hu2 hp2 haact
          have : activeFor u p now a = true := by
            rw [activeFor_iff]
            exact ⟨hu2, hp2, haact.1, haact.2.1, haact.2.2⟩
          exact hnone a ha this
      · rw [otpRequest_rateLimited_eq hidem
          (checkRateLimits_ipLimited s u ip now hu (by omega))]
        exact storeInv_mono ht hInv
    · rw [otpRequest_rateLimited_eq hidem
        (checkRateLimits_userLimited s u ip now (by omega))]
      exact storeInv_mono ht hInv

theorem step_inv {s : SysState} {t : Int} (op : Op)
    (hInv : StoreInv s t) (ht : t ≤ opTime op) :
    StoreInv (step s op) (opTime op) := by
  cases op with
  | request u p key ip draw t' => exact otpRequest_inv hInv ht
  | verify u p code t' => exact otpVerify_inv hInv ht

theorem runFrom_inv : ∀ (ops : List Op) (s : SysState) (t : Int),
    StoreInv s t → chronoFrom t ops = true →
    StoreInv (runFrom s ops) (endTime t ops) := by
  intro ops
  induction ops with
  | nil => intro s t h _; exact h
  | cons op rest ih =>
    intro s t h hc
    rw [chronoFrom, Bool.and_eq_true] at hc
    exact ih (step s op) (opTime op)
      (step_inv op h (of_decide_eq_true hc.1)) hc.2

/-! ### Concrete traces used by counterexamples and witnesses -/

/-- Issue for (U1, login); three wrong verifies (locking the row); issue
again while the row is locked. All times in ms. -/
def opsLockedPair : List Op :=
  [ .request "U1" "login" "k1" "1.1.1.1" 111111 0,
    .verify "U1" "login" "000000" 1000,
    .verify "U1" "login" "000000" 2000,
    .verify "U1" "login" "000000" 3000,
    .request "U1" "login" "k2" "1.1.1.1" 222222 4000 ]

/-- Issue for (U1, login) then three wrong verifies: the row ends locked
with `locked_until = 630000` while `expires_at = 300000`. -/
def opsLockout : List Op :=
  [ .request "U1" "login" "k1" "1.1.1.1" 123456 0,
    .verify "U1" "login" "000000" 10000,
    .verify "U1" "login" "000000" 20000,
    .verify "U1" "login" "000000" 30000 ]

/-- A store holding exactly one freshly issued OTP for (U1, login) with
code `123456`, and the idempotency row for key `k1`. -/
def sOneOtp : SysState :=
  runFrom initState [ .request "U1" "login" "k1" "1.1.1.1" 123456 0 ]

/-- A store whose idempotency table holds key `K` (stored at time 0, so
expiring at 600000) plus the corresponding OTP row. -/
def sKeyK : SysState :=
  runFrom initState [ .request "U1" "login" "K" "1.1.1.1" 1 0 ]

/-- The still-active row (id 2) of `runFrom initState opsLockedPair`. -/
def recActive2 : OtpRecord :=
  { id := 2, user_id := "U1", purpose := "login", code := "222222",
    created_at := 4000, expires_at := 304000, is_used := false,
    is_locked := false, locked_until := none, attempt_count := 0 }

/-- The locked row (id 1) of `runFrom initState opsLockout`. -/
def recLocked1 : OtpRecord :=
  { id := 1, user_id := "U1", purpose := "login", code := "123456",
    created_at := 0, expires_at := 300000, is_used := false,
    is_locked := true, locked_until := some 630000, attempt_count := 3 }

/-- The single row of `sOneOtp`. -/
def recFresh1 : OtpRecord :=
  { id := 1, user_id := "U1", purpose := "login", code := "123456",
    created_at := 0, expires_at := 300000, is_used := false,
    is_locked := false, locked_until := none, attempt_count := 0 }

/-! ### Claim theorems -/

/-- Claim C1, counterexample: the single-active-OTP invariant as stated
(at most one row with `is_used = false` per (user, purpose)) fails on a
reachable, chronologically ordered trace: issuing while the prior unused
row is locked leaves two rows with `is_used = false`, because the
invalidation lookup filters on `is_locked = FALSE`. -/
theorem claim_C1_counterexample :
    chronoFrom 0 opsLockedPair = true ∧
    ((runFrom initState opsLockedPair).otps.countP
      (fun r => unusedFor "U1" "login" r)) = 2 := by
  constructor
  · decide
  · decide

/-- Claim C1, amended: on every reachable store, for each (user, purpose)
at most one row is active — unused, unlocked and unexpired; unused rows
that are locked or expired are not invalidated by Issue and may
accumulate. -/
theorem claim_C1_amended (t0 : Int) (ops : List Op)
    (hchrono : chronoFrom t0 ops = true) :
    List.Pairwise (Excl (endTime t0 ops)) (runFrom initState ops).otps :=
  (runFrom_inv ops initState t0 (storeInv_initState t0) hchrono).2.2

theorem claim_C1_amended_witness :
    chronoFrom 0 opsLockedPair = true ∧
    List.Pairwise (Excl (endTime 0 opsLockedPair))
      (runFrom initState opsLockedPair).otps :=
  ⟨by decide, claim_C1_amended 0 opsLockedPair (by decide)⟩

/-- Claim C2: with verifications serialized by the row lock, the second
correct-code Verify for the same active OTP returns NotFound, not the
CodeUsed documented in the README: the lookup filters `is_used = FALSE`,
so a consumed row is invisible and both `code_used` branches of the
handler are unreachable. -/
theorem claim_C2_code_bug :
    (otpVerify sOneOtp "U1" "login" "123456" 1000).1 = .success ∧
    (otpVerify (otpVerify sOneOtp "U1" "login" "123456" 1000).2
      "U1" "login" "123456" 2000).1 = .notFound ∧
    (otpVerify (otpVerify sOneOtp "U1" "login" "123456" 1000).2
      "U1" "login" "123456" 2000).1 ≠ .codeUsed := by
  refine ⟨by decide, by decide, by decide⟩

/-- Claim C3, counterexample: a successful Issue does not mark a locked
unused row used — after `opsLockedPair` the old row (id 1) is still
`is_used = false, is_locked = true` while the new row (id 2) exists. -/
theorem claim_C3_counterexample :
    chronoFrom 0 opsLockedPair = true ∧
    ((runFrom initState opsLockedPair).otps.filter
      (fun r => r.id == 1)).map (fun r => (r.is_used, r.is_locked)) =
        [(false, true)] ∧
    ((runFrom initState opsLockedPair).otps.filter
      (fun r => r.id == 2)).length = 1 := by
  refine ⟨by decide, by decide, by decide⟩

/-- Claim C3, amended: a successful Issue marks used only the first
existing row that is unused, unlocked and unexpired (the invalidation
query's own filter); when no such row exists, nothing is invalidated —
locked or expired unused rows are left untouched. Moreover the writes are
subject to `uk_user_purpose_active`: when the invalidation UPDATE (or the
new-row INSERT) would duplicate another row's key tuple, the transaction
rolls back and the request fails with an internal error, invalidating and
inserting nothing. -/
theorem claim_C3_amended (s : SysState) (u p key ip : String) (draw : Nat)
    (now : Int)
    (hidem : s.idempotencyKeys.find?
      (fun r => r.key == key && decide (now < r.expires_at)) = none)
    (hu : (s.userRateLimits.filter
      (qualifies u (now - 15 * 60 * 1000))).length < 3)
    (hip : (s.ipRateLimits.filter
      (qualifies ip (now - 15 * 60 * 1000))).length < 8)
    (hdup : s.idempotencyKeys.any (fun r => r.key == key) = false) :
    (∀ ex, s.otps.find? (activeFor u p now) = some ex →
      updateViolatesKey s.otps ex.id markUsedRow = false →
      insertViolatesKey (updateOtp s.otps ex.id markUsedRow)
        (newOtpRecord s u p draw now) = false →
      ex.is_used = false ∧ ex.is_locked = false ∧ now < ex.expires_at ∧
      (otpRequest s u p key ip draw now).2.otps =
        updateOtp s.otps ex.id markUsedRow ++
          [newOtpRecord s u p draw now]) ∧
    (s.otps.find? (activeFor u p now) = none →
      insertViolatesKey s.otps (newOtpRecord s u p draw now) = false →
      (otpRequest s u p key ip draw now).2.otps =
        s.otps ++ [newOtpRecord s u p draw now]) ∧
    (∀ ex, s.otps.find? (activeFor u p now) = some ex →
      updateViolatesKey s.otps ex.id markUsedRow = true →
      otpRequest s u p key ip draw now = (.internalError, s)) := by
  refine ⟨?_, ?_, ?_⟩
  · intro ex hex hupd hins
    have hpred := List.find?_some hex
    rw [activeFor_iff] at hpred
    rw [otpRequest_ok_found_eq hidem hu hip hex hupd hins hdup]
    exact ⟨hpred.2.2.1, hpred.2.2.2.1, hpred.2.2.2.2, rfl⟩
  · intro hex hins
    rw [otpRequest_ok_notFound_eq hidem hu hip hex hins hdup]
  · intro ex hex hupd
    exact otpRequest_err_updVio_eq hidem hu hip hex hupd

theorem claim_C3_amended_witness :
    (otpRequest (runFrom initState opsLockedPair) "U1" "login" "k3"
      "1.1.1.1" 333333 5000).2.otps =
      updateOtp (runFrom initState opsLockedPair).otps 2 markUsedRow ++
        [newOtpRecord (runFrom initState opsLockedPair) "U1" "login"
          333333 5000] := by
  have h := (claim_C3_amended (runFrom initState opsLockedPair)
    "U1" "login" "k3" "1.1.1.1" 333333 5000
    (by decide) (by decide) (by decide) (by decide)).1
  exact (h recActive2 (by decide) (by decide) (by decide)).2.2.2

/-- Claim C4, counterexample: on the first Verify at `locked_until`
(630000 ms) the row issued at time 0 is long expired (`expires_at =
300000`), so the call returns Expired — not the claimed
`InvalidCode(attempts_remaining = 2)` after an unlock-and-reset. -/
theorem claim_C4_counterexample :
    chronoFrom 0 opsLockout = true ∧
    (otpVerify (runFrom initState opsLockout) "U1" "login" "000000"
      630000).1 = .expired ∧
    (otpVerify (runFrom initState opsLockout) "U1" "login" "000000"
      630000).1 ≠ .invalidCode 2 := by
  refine ⟨by decide, by decide, by decide⟩

/-- Claim C4, amended: on a reachable store, a wrong-code Verify on an
active unexpired row increments `attempt_count`, locking the row with
`locked_until = now + 600s` and failing TooManyAttempts(600) when the
incremented count reaches 3 (provided the lockout write does not collide
with another locked unused row of the pair under `uk_user_purpose_active`,
in which case the transaction rolls back with an internal error), and
otherwise failing `InvalidCode(3 − attempt_count)` (the attempt-count
write touches no key column and can never collide). Once `locked_until`
has elapsed the row is necessarily expired (locking happened before
`expires_at = created_at + 300s` and `locked_until` lies 600s later), so
the next Verify retires the row with Expired (or rolls back with an
internal error on a key collision) — the unlock-and-reset branch is
unreachable, and no `InvalidCode(2)` ever follows a lockout. -/
theorem claim_C4_amended (t0 : Int) (ops : List Op)
    (hchrono : chronoFrom t0 ops = true) (u p c : String) (now : Int)
    (r : OtpRecord) (hend : endTime t0 ops ≤ now)
    (hlat : latestUnused (runFrom initState ops).otps u p = some r) :
    (r.is_locked = false → ¬r.expires_at < now → r.code ≠ c →
      (3 ≤ r.attempt_count + 1 →
        updateViolatesKey (runFrom initState ops).otps r.id
          (lockRow (r.attempt_count + 1) (now + 10 * 60 * 1000)) = false →
        otpVerify (runFrom initState ops) u p c now =
          (.tooManyAttempts 600,
           { runFrom initState ops with
              otps := (updateOtp (runFrom initState ops).otps r.id
                (lockRow (r.attempt_count + 1) (now + 10 * 60 * 1000))) })) ∧
      (3 ≤ r.attempt_count + 1 →
        updateViolatesKey (runFrom initState ops).otps r.id
          (lockRow (r.attempt_count + 1) (now + 10 * 60 * 1000)) = true →
        otpVerify (runFrom initState ops) u p c now =
          (.internalError, runFrom initState ops)) ∧
      (r.attempt_count + 1 < 3 →
        otpVerify (runFrom initState ops) u p c now =
          (.invalidCode (3 - (r.attempt_count + 1)),
           { runFrom initState ops with
              otps := (updateOtp (runFrom initState ops).otps r.id
                (bumpRow (r.attempt_count + 1))) }))) ∧
    (∀ l, r.is_locked = true → r.locked_until = some l → l ≤ now →
      (updateViolatesKey (runFrom initState ops).otps r.id markUsedRow
          = false →
        otpVerify (runFrom initState ops) u p c now =
          (.expired,
           { runFrom initState ops with
              otps := updateOtp (runFrom initState ops).otps r.id
                markUsedRow })) ∧
      (updateViolatesKey (runFrom initState ops).otps r.id markUsedRow
          = true →
        otpVerify (runFrom initState ops) u p c now =
          (.internalError, runFrom initState ops))) := by
  have hinv := runFrom_inv ops initState t0 (storeInv_initState t0) hchrono
  obtain ⟨hmem, hpred⟩ := latestUnused_spec hlat
  have hused : r.is_used = false := ((unusedFor_iff u p r).mp hpred).2.2
  constructor
  · intro hlock hnexp hcode
    rw [otpVerify_plain_eq hlat hnexp (Or.inr hlock)]
    refine ⟨?_, ?_, ?_⟩
    · intro h3 hvio
      rw [finishVerify_lock_eq hused hcode h3 hvio]
    · intro h3 hvio
      rw [finishVerify_lockVio_eq hused hcode h3 hvio]
    · intro hlt
      rw [finishVerify_bump_eq hused hcode hlt]
  · intro l hlock hlu hle
    obtain ⟨lu, hlu', hgt⟩ := hinv.2.1 r hmem hlock
    rw [hlu] at hlu'
    injection hlu' with hlu'
    have hexp : r.expires_at < now := by omega
    constructor
    · intro hvio
      rw [otpVerify_expired_eq hlat hexp hvio]
    · intro hvio
      rw [otpVerify_expiredVio_eq hlat hexp hvio]

theorem claim_C4_amended_witness :
    otpVerify (runFrom initState opsLockout) "U1" "login" "000000"
      630000 =
      (.expired,
       { runFrom initState opsLockout with
          otps := updateOtp (runFrom initState opsLockout).otps 1
            markUsedRow }) := by
  have h := (claim_C4_amended 0 opsLockout (by decide) "U1" "login"
    "000000" 630000 recLocked1 (by decide) (by decide)).2
  exact (h 630000 rfl rfl (by decide)).1 (by decide)

/-- Claim C5, counterexample: after an expired OTP is retired by a first
Verify, a further Verify for the pair (no newer row existing) returns
NotFound, not the claimed CodeUsed: used rows are filtered out of the
lookup. -/
theorem claim_C5_counterexample :
    (otpVerify sOneOtp "U1" "login" "123456" 300001).1 = .expired ∧
    (otpVerify (otpVerify sOneOtp "U1" "login" "123456" 300001).2
      "U1" "login" "123456" 300002).1 = .notFound ∧
    (otpVerify (otpVerify sOneOtp "U1" "login" "123456" 300001).2
      "U1" "login" "123456" 300002).1 ≠ .codeUsed := by
  refine ⟨by decide, by decide, by decide⟩

/-- Claim C5, amended: a Verify on an unused OTP whose `expires_at` is in
the past marks it used and fails Expired, provided the mark-used write
does not duplicate an existing used row's key tuple under
`uk_user_purpose_active` (otherwise the transaction rolls back with an
internal error and nothing is retired); after a successful retirement,
every later Verify for the pair (when that was the only unused row) fails
NotFound, because the lookup selects only `is_used = FALSE` rows. -/
theorem claim_C5_amended (s : SysState) (u p code : String) (now : Int)
    (r : OtpRecord) (hlat : latestUnused s.otps u p = some r)
    (hexp : r.expires_at < now)
    (honly : s.otps.filter (unusedFor u p) = [r]) :
    (updateViolatesKey s.otps r.id markUsedRow = false →
      otpVerify s u p code now =
        (.expired, { s with otps := updateOtp s.otps r.id markUsedRow }) ∧
      (∀ code2 now2,
        otpVerify { s with otps := updateOtp s.otps r.id markUsedRow }
          u p code2 now2 =
        (.notFound,
         { s with otps := updateOtp s.otps r.id markUsedRow }))) ∧
    (updateViolatesKey s.otps r.id markUsedRow = true →
      otpVerify s u p code now = (.internalError, s)) := by
  constructor
  · intro hvio
    refine ⟨otpVerify_expired_eq hlat hexp hvio, ?_⟩
    intro code2 now2
    have hnone : latestUnused (updateOtp s.otps r.id markUsedRow) u p
        = none := by
      unfold latestUnused
      have hnil : (updateOtp s.otps r.id markUsedRow).filter
          (unusedFor u p) = [] := by
        rw [List.filter_eq_nil_iff]
        intro x hx
        obtain ⟨y, hy, hay⟩ := mem_updateOtp.mp hx
        by_cases hid : y.id = r.id
        · rw [if_pos hid] at hay
          subst hay
          simp [unusedFor, markUsedRow]
        · rw [if_neg hid] at hay
          rw [hay]
          intro hpred
          have hmemf : y ∈ s.otps.filter (unusedFor u p) :=
            List.mem_filter.mpr ⟨hy, hpred⟩
          rw [honly, List.mem_singleton] at hmemf
          exact hid (by rw [hmemf])
      rw [hnil]
      rfl
    exact otpVerify_notFound_eq hnone
  · intro hvio
    exact otpVerify_expiredVio_eq hlat hexp hvio

theorem claim_C5_amended_witness :
    otpVerify sOneOtp "U1" "login" "123456" 300001 =
      (.expired,
       { sOneOtp with otps := updateOtp sOneOtp.otps 1 markUsedRow }) ∧
    otpVerify { sOneOtp with
        otps := updateOtp sOneOtp.otps 1 markUsedRow }
      "U1" "login" "123456" 300002 =
      (.notFound,
       { sOneOtp with otps := updateOtp sOneOtp.otps 1 markUsedRow }) := by
  have h := (claim_C5_amended sOneOtp "U1" "login" "123456" 300001
    recFresh1 (by decide) (by decide) (by decide)).1 (by decide)
  exact ⟨h.1, h.2 "123456" 300002⟩

/-- Claim C6: an Issue whose idempotency key has an unexpired stored
record replays exactly the stored payload and leaves the entire store
unchanged — no OTP row is created or invalidated and no rate-limit row is
recorded for either scope. -/
theorem claim_C6_replay_frame (s : SysState) (u p key ip : String)
    (draw : Nat) (now : Int) (rec : IdemRecord)
    (h : s.idempotencyKeys.find?
      (fun r => r.key == key && decide (now < r.expires_at)) = some rec) :
    (otpRequest s u p key ip draw now).1 = .replay rec.response ∧
    (otpRequest s u p key ip draw now).2 = s := by
  rw [otpRequest_replay_eq h]
  exact ⟨rfl, rfl⟩

theorem claim_C6_replay_frame_witness :
    (otpRequest sKeyK "U2" "other" "K" "2.2.2.2" 5 1000).1 =
      .replay { otp_id := 1, ttl := 300, remaining_requests := 2 } ∧
    (otpRequest sKeyK "U2" "other" "K" "2.2.2.2" 5 1000).2 = sKeyK :=
  claim_C6_replay_frame sKeyK "U2" "other" "K" "2.2.2.2" 5 1000
    { key := "K", user_id := "U1", purpose := "login",
      response := { otp_id := 1, ttl := 300, remaining_requests := 2 },
      expires_at := 600000 } (by decide)

/-- Two issuances for (U1, login): the first row is used (superseded),
the second is active; rate-limit tables hold two entries each. -/
def sTwoIssues : SysState :=
  runFrom initState
    [ .request "U1" "login" "a" "1.1.1.1" 1 0,
      .request "U1" "login" "b" "1.1.1.1" 2 100000 ]

/-- Three issuances by U1 for three distinct purposes (no
`uk_user_purpose_active` collisions), filling the user window. -/
def opsThreePurposes : List Op :=
  [ .request "U1" "p1" "a" "1.1.1.1" 1 0,
    .request "U1" "p2" "b" "1.1.1.1" 2 100000,
    .request "U1" "p3" "c" "1.1.1.1" 3 200000 ]

/-- Claim C7, counterexample: an admitted Issue does not always record
its rate-limit entries — U1's third same-purpose issuance is admitted
(2 entries in each window, below both limits) yet the invalidation UPDATE
collides under `uk_user_purpose_active` with the previously superseded
row, so the call returns an internal error and the rollback discards the
would-be entries: the state, rate-limit tables included, is unchanged. -/
theorem claim_C7_counterexample :
    ((sTwoIssues.userRateLimits.filter
      (qualifies "U1" (200000 - 15 * 60 * 1000))).length = 2) ∧
    ((sTwoIssues.ipRateLimits.filter
      (qualifies "1.1.1.1" (200000 - 15 * 60 * 1000))).length = 2) ∧
    otpRequest sTwoIssues "U1" "login" "c" "1.1.1.1" 3 200000 =
      (.internalError, sTwoIssues) := by
  refine ⟨by decide, by decide, by decide⟩

/-- Claim C7, amended: for an Issue reaching the rate limiter (its key
absent from the idempotency table), with `count` the number of entries of
a scope in the 15-minute window: a user count at its limit 3 (checked
first) or an IP count at its limit 8 (checked second) fails the call with
`RateLimited(⌈(oldest qualifying timestamp + 900s − now)/1s⌉)` and
records nothing for either scope; otherwise the call either completes,
recording one entry per scope and returning `3 − count − 1` remaining
requests, or fails on a duplicate-key collision of the issuance itself
(the otps unique key), in which case the whole transaction — the recorded
entries included — rolls back and nothing is recorded. -/
theorem claim_C7_rate_limiter (s : SysState) (u p key ip : String)
    (draw : Nat) (now : Int)
    (hk : ∀ rec ∈ s.idempotencyKeys, rec.key ≠ key) :
    (3 ≤ (s.userRateLimits.filter
        (qualifies u (now - 15 * 60 * 1000))).length →
      otpRequest s u p key ip draw now =
        (.rateLimited (ceilDiv1000 (minTs (s.userRateLimits.filter
          (qualifies u (now - 15 * 60 * 1000))) + 15 * 60 * 1000 - now)),
         s)) ∧
    ((s.userRateLimits.filter
        (qualifies u (now - 15 * 60 * 1000))).length < 3 →
      8 ≤ (s.ipRateLimits.filter
        (qualifies ip (now - 15 * 60 * 1000))).length →
      otpRequest s u p key ip draw now =
        (.rateLimited (ceilDiv1000 (minTs (s.ipRateLimits.filter
          (qualifies ip (now - 15 * 60 * 1000))) + 15 * 60 * 1000 - now)),
         s)) ∧
    ((s.userRateLimits.filter
        (qualifies u (now - 15 * 60 * 1000))).length < 3 →
      (s.ipRateLimits.filter
        (qualifies ip (now - 15 * 60 * 1000))).length < 8 →
      otpRequest s u p key ip draw now = (.internalError, s) ∨
      ((otpRequest s u p key ip draw now).1 =
        .ok { otp_id := s.nextOtpId, ttl := 300,
              remaining_requests := 3 - (s.userRateLimits.filter
                (qualifies u (now - 15 * 60 * 1000))).length - 1 } ∧
      (otpRequest s u p key ip draw now).2.userRateLimits =
        s.userRateLimits ++ [(u, now)] ∧
      (otpRequest s u p key ip draw now).2.ipRateLimits =
        s.ipRateLimits ++ [(ip, now)])) := by
  have hidem : s.idempotencyKeys.find?
      (fun r => r.key == key && decide (now < r.expires_at)) = none := by
    rw [List.find?_eq_none]
    intro rec hrec hcon
    rw [Bool.and_eq_true] at hcon
    exact hk rec hrec (by simpa using hcon.1)
  have hdup : s.idempotencyKeys.any (fun r => r.key == key) = false := by
    rw [← Bool.not_eq_true, List.any_eq_true]
    rintro ⟨rec, hrec, hcon⟩
    exact hk rec hrec (by simpa using hcon)
  refine ⟨?_, ?_, ?_⟩
  · intro h3
    rw [otpRequest_rateLimited_eq hidem
      (checkRateLimits_userLimited s u ip now h3)]
  · intro hu hip
    rw [otpRequest_rateLimited_eq hidem
      (checkRateLimits_ipLimited s u ip now hu hip)]
  · intro hu hip
    cases hfind : s.otps.find? (activeFor u p now) with
    | some ex =>
      by_cases hupd : updateViolatesKey s.otps ex.id markUsedRow = true
      · exact Or.inl (otpRequest_err_updVio_eq hidem hu hip hfind hupd)
      · have hupd' := bool_eq_false_of_ne_true hupd
        by_cases hins : insertViolatesKey
            (updateOtp s.otps ex.id markUsedRow)
            (newOtpRecord s u p draw now) = true
        · exact Or.inl
            (otpRequest_err_insVio_found_eq hidem hu hip hfind hupd' hins)
        · rw [otpRequest_ok_found_eq hidem hu hip hfind hupd'
            (bool_eq_false_of_ne_true hins) hdup]
          exact Or.inr ⟨rfl, rfl, rfl⟩
    | none =>
      by_cases hins : insertViolatesKey s.otps
          (newOtpRecord s u p draw now) = true
      · exact Or.inl
          (otpRequest_err_insVio_notFound_eq hidem hu hip hfind hins)
      · rw [otpRequest_ok_notFound_eq hidem hu hip hfind
          (bool_eq_false_of_ne_true hins) hdup]
        exact Or.inr ⟨rfl, rfl, rfl⟩

theorem claim_C7_rate_limiter_witness :
    otpRequest (runFrom initState opsThreePurposes)
      "U1" "p4" "d" "1.1.1.1" 4 300500 =
      (.rateLimited 600, runFrom initState opsThreePurposes) := by
  have h := (claim_C7_rate_limiter (runFrom initState opsThreePurposes)
    "U1" "p4" "d" "1.1.1.1" 4 300500 (by decide)).1 (by decide)
  rw [h]
  decide

/-- Claim C8, counterexample: an expired existing idempotency key does
block a new recording — the stored row for key K expired at 600000 ms, and
the Issue at 700000 ms with the same key fails with a rolled-back internal
error (duplicate primary key), recording nothing. -/
theorem claim_C8_counterexample :
    (∃ rec ∈ sKeyK.idempotencyKeys,
      rec.key = "K" ∧ rec.expires_at < 700000) ∧
    otpRequest sKeyK "U1" "login" "K" "1.1.1.1" 2 700000 =
      (.internalError, sKeyK) := by
  refine ⟨by decide, by decide⟩

/-- Claim C8, amended: the reference implementation performs no
payload-based conflict detection at all — any unexpired row with the key
replays its stored payload — and recording is blocked by the table's
primary key whenever a row with the key still exists: in particular an
Issue whose key exists only expired, and which passes both rate limits,
fails with a rolled-back internal error instead of recording anew. -/
theorem claim_C8_amended (s : SysState) (u p key ip : String) (draw : Nat)
    (now : Int)
    (hmiss : s.idempotencyKeys.find?
      (fun r => r.key == key && decide (now < r.expires_at)) = none)
    (hexists : s.idempotencyKeys.any (fun r => r.key == key) = true)
    (hu : (s.userRateLimits.filter
      (qualifies u (now - 15 * 60 * 1000))).length < 3)
    (hip : (s.ipRateLimits.filter
      (qualifies ip (now - 15 * 60 * 1000))).length < 8) :
    otpRequest s u p key ip draw now = (.internalError, s) :=
  otpRequest_err_dupKey_eq hmiss hu hip hexists

theorem claim_C8_amended_witness :
    otpRequest sKeyK "U1" "login" "K" "1.1.1.1" 3 700001 =
      (.internalError, sKeyK) :=
  claim_C8_amended sKeyK "U1" "login" "K" "1.1.1.1" 3 700001
    (by decide) (by decide) (by decide) (by decide)

/-- Claim C9, counterexample: `generateOTP` is not bias-free — of the
2^32 equally likely draws, 4295 map to the code of residue 0 but only
4294 to the code of residue 999999, because the code is
`draw % 1000000` with no rejection and `2^32 % 1000000 = 967296 ≠ 0`. -/
theorem claim_C9_counterexample :
    ((Finset.range (2 ^ 32)).filter
      (fun n => generateOTP n = generateOTP 0)).card ≠
    ((Finset.range (2 ^ 32)).filter
      (fun n => generateOTP n = generateOTP 999999)).card := by
  rw [card_filter_generateOTP 0 (by norm_num),
    card_filter_generateOTP 999999 (by norm_num)]
  decide

/-- Claim C9, amended: `generateOTP` reduces the uniform 32-bit draw
modulo 10^6 without rejection, so the codes of residues 0–967295 each
receive 4295 of the 2^32 draws while residues 967296–999999 receive only
4294 — a modulo-biased, non-uniform distribution; every returned value is
a 6-character string of decimal digits. -/
theorem claim_C9_amended :
    (∀ c, c < 1000000 →
      ((Finset.range (2 ^ 32)).filter
        (fun n => generateOTP n = generateOTP c)).card =
        if c < 967296 then 4295 else 4294) ∧
    (∀ draw : Nat, (generateOTP draw).length = 6 ∧
      ∀ ch ∈ (generateOTP draw).data, ch.isDigit = true) := by
  constructor
  · intro c hc
    rw [card_filter_generateOTP c hc]
    have h32 : (2 : Nat) ^ 32 = 4294967296 := by norm_num
    rw [h32]
    by_cases h : c < 967296
    · rw [if_pos h]
      omega
    · rw [if_neg h]
      omega
  · intro draw
    exact ⟨generateOTP_length draw, generateOTP_all_digits draw⟩

theorem claim_C9_amended_witness :
    ((Finset.range (2 ^ 32)).filter
      (fun n => generateOTP n = generateOTP 967296)).card = 4294 ∧
    (generateOTP 967296).length = 6 := by
  refine ⟨?_, (claim_C9_amended.2 967296).1⟩
  have h := claim_C9_amended.1 967296 (by norm_num)
  simpa using h

/-- Claim C10: on every reachable store (schema defaults, then any
chronological sequence of Issue and Verify), a locked row always carries
a non-null `locked_until`: Issue inserts rows unlocked with a NULL
`locked_until`, and Verify writes `locked_until` together with
`is_locked` and clears both together. -/
theorem claim_C10_lock_coherence (t0 : Int) (ops : List Op)
    (hchrono : chronoFrom t0 ops = true) :
    ∀ r ∈ (runFrom initState ops).otps, r.is_locked = true →
      r.locked_until ≠ none := by
  intro r hr hlock
  obtain ⟨lu, hlu, _⟩ :=
    (runFrom_inv ops initState t0 (storeInv_initState t0)
      hchrono).2.1 r hr hlock
  simp [hlu]

theorem claim_C10_lock_coherence_witness :
    chronoFrom 0 opsLockout = true ∧
    (∀ r ∈ (runFrom initState opsLockout).otps, r.is_locked = true →
      r.locked_until ≠ none) :=
  ⟨by decide, claim_C10_lock_coherence 0 opsLockout (by decide)⟩
